import Mathlib

/-!
Shallow embedding of `src/synthetic_engine.py` (synthetic multi-timeframe
candle engine) and verification of the specification claims about it.

Modelling conventions:
* Python `int` timestamps are `Int`; Python `//` and `%` are `Int.fdiv` and
  `Int.fmod` (floor division / sign-of-divisor remainder, exactly Python's
  semantics).
* Python `float` prices and volumes are `ℚ` (the operations the engine
  performs on them — assignment, comparison, addition — are exact on finite
  floats; non-finite floats are outside this model).
* The Python runtime's civil-calendar conversions (`datetime.utcfromtimestamp`
  and naive `datetime(...).timestamp()` under a UTC process timezone, the
  deployment configuration assumed throughout the spec) are embedded as
  executable proleptic-Gregorian conversions `civilFromDays` / `daysFromCivil`.
* Code paths where Python raises (`ts % size` with `size` `None` or `0`)
  return `none` from the bounds helper; `ingest_tick` reports the escaped
  exception in the second component of its result and keeps the state
  mutations already performed, as the in-place Python mutation would.
* Python `dict` / `defaultdict(dict)` is the insertion-ordered association
  list `Dict`; `Dict.get` models `dict.get` (no materialization) while
  `ingest_tick` materializes the inner dict explicitly, as
  `self.state[symbol]` does on a `defaultdict`.
-/

/-- Civil (proleptic Gregorian) date of a day count relative to 1970-01-01;
models the date part of `datetime.utcfromtimestamp`. Returns
`(year, month, day)`. -/
def civilFromDays (z0 : Int) : Int × Int × Int :=
  let z := z0 + 719468
  let era := z.fdiv 146097
  let doe := z - era * 146097
  let yoe := (doe - doe.fdiv 1460 + doe.fdiv 36524 - doe.fdiv 146096).fdiv 365
  let y := yoe + era * 400
  let doy := doe - (365 * yoe + yoe.fdiv 4 - yoe.fdiv 100)
  let mp := (5 * doy + 2).fdiv 153
  let d := doy - (153 * mp + 2).fdiv 5 + 1
  let m := if mp < 10 then mp + 3 else mp - 9
  (if m ≤ 2 then y + 1 else y, m, d)

/-- Day count relative to 1970-01-01 of a civil (proleptic Gregorian) date;
models `datetime(y, m, d).timestamp() // 86400` for a naive datetime under a
UTC process timezone. -/
def daysFromCivil (y m d : Int) : Int :=
  let y2 := if m ≤ 2 then y - 1 else y
  let era := y2.fdiv 400
  let yoe := y2 - era * 400
  let mp := if m > 2 then m - 3 else m + 9
  let doy := (153 * mp + 2).fdiv 5 + d - 1
  let doe := yoe * 365 + yoe.fdiv 4 - yoe.fdiv 100 + doy
  era * 146097 + doe - 719468

/-- Epoch timestamp of midnight UTC on a civil date; models
`int(datetime(y, m, d).timestamp())` under a UTC process timezone. -/
def timestampOfCivil (y m d : Int) : Int :=
  daysFromCivil y m d * 86400

/-- The `(year, month, day)` of a timestamp in UTC, as
`datetime.utcfromtimestamp(ts)` exposes them. -/
def utcCivil (ts : Int) : Int × Int × Int :=
  civilFromDays (ts.fdiv 86400)

/-- Models `datetime.utcfromtimestamp(ts).weekday()`: Monday = 0 .. Sunday = 6
(1970-01-01 was a Thursday, weekday 3). -/
def utcWeekday (ts : Int) : Int :=
  (ts.fdiv 86400 + 3).fmod 7

/-- Python `TimeframeConfig.__init__` (synthetic_engine.py lines 13-25): plain field
assignment, no validation of any kind/field combination. -/
structure TimeframeConfig where
  name : String
  kind : String
  size_seconds : Option Int := none
  calendar_type : Option String := none
  years_span : Option Int := none
deriving DecidableEq, Repr

/-- Python `SyntheticCandle` field state (synthetic_engine.py lines 28-48). -/
structure SyntheticCandle where
  start_ts : Int
  end_ts : Int
  o : ℚ
  h : ℚ
  l : ℚ
  c : ℚ
  v : ℚ
deriving DecidableEq, Repr

/-- Python `SyntheticCandle.__init__` (lines 32-39): `o = h = l = c = price`,
`v = float(volume or 0.0)` (which is `volume` as a rational, since `0.0 or
0.0` is `0.0`). -/
def SyntheticCandle.create (start_ts end_ts : Int) (price volume : ℚ) : SyntheticCandle :=
  { start_ts := start_ts, end_ts := end_ts,
    o := price, h := price, l := price, c := price, v := volume }

/-- Python `SyntheticCandle.update` (lines 41-48): `c = p`; `h = p` when `p > h`;
`l = p` when `p < l`; `v += float(volume or 0.0)`. -/
def SyntheticCandle.update (b : SyntheticCandle) (price volume : ℚ) : SyntheticCandle :=
  let p := price
  { b with
    c := p,
    h := if p > b.h then p else b.h,
    l := if p < b.l then p else b.l,
    v := b.v + volume }

/-- Zero-pad an integer to two digits (`strftime` field). -/
def pad2 (n : Int) : String :=
  if 0 ≤ n ∧ n < 10 then "0" ++ toString n else toString n

/-- Zero-pad an integer to four digits (`strftime` `%Y`). -/
def pad4 (n : Int) : String :=
  if 0 ≤ n ∧ n < 10 then "000" ++ toString n
  else if 0 ≤ n ∧ n < 100 then "00" ++ toString n
  else if 0 ≤ n ∧ n < 1000 then "0" ++ toString n
  else toString n

/-- Models `datetime.utcfromtimestamp(ts).strftime(iso-format)` with a `Z` suffix
(lines 57-58). -/
def isoUtc (ts : Int) : String :=
  let ymd := civilFromDays (ts.fdiv 86400)
  let sod := ts.fmod 86400
  pad4 ymd.1 ++ "-" ++ pad2 ymd.2.1 ++ "-" ++ pad2 ymd.2.2 ++ "T" ++
    pad2 (sod.fdiv 3600) ++ ":" ++ pad2 ((sod.fmod 3600).fdiv 60) ++ ":" ++
    pad2 (sod.fmod 60) ++ "Z"

/-- The dictionary returned by `SyntheticCandle.to_dict` (lines 60-70). -/
structure BarView where
  t : String
  o : ℚ
  h : ℚ
  l : ℚ
  c : ℚ
  v : ℚ
  elapsed : Int
  remaining : Int
  complete : Bool
deriving DecidableEq, Repr

/-- Python `SyntheticCandle.to_dict` (lines 50-70). `wallClock` is the value
`time.time()` would return during the call. `now_ts = now_ts or time.time()`
replaces both an absent `now_ts` and a falsy `now_ts == 0` by the wall
clock. -/
def SyntheticCandle.to_dict (b : SyntheticCandle) (now_ts : Option Int)
    (wallClock : Int) : BarView :=
  let now := match now_ts with
    | none => wallClock
    | some w => if w = 0 then wallClock else w
  let elapsed := max 0 (now - b.start_ts)
  let total := max 1 (b.end_ts - b.start_ts)
  let remaining := max 0 (total - elapsed)
  let complete := decide (b.end_ts ≤ now)
  { t := isoUtc b.start_ts, o := b.o, h := b.h, l := b.l, c := b.c, v := b.v,
    elapsed := elapsed, remaining := remaining, complete := complete }

/-- Association-list lookup, first match: `dict.get` / `dict[k]` read. -/
def lookupEntries {α : Type} : List (String × α) → String → Option α
  | [], _ => none
  | (k, v) :: rest, key => if k = key then some v else lookupEntries rest key

/-- Association-list store: `dict[k] = v` (replace in place, else append,
preserving Python dict insertion order). -/
def setEntries {α : Type} : List (String × α) → String → α → List (String × α)
  | [], key, v => [(key, v)]
  | (k, v0) :: rest, key, v =>
    if k = key then (k, v) :: rest else (k, v0) :: setEntries rest key v

/-- Insertion-ordered string-keyed dictionary: Python `dict`. -/
structure Dict (α : Type) where
  entries : List (String × α)
deriving DecidableEq, Repr

def Dict.get {α : Type} (d : Dict α) (k : String) : Option α :=
  lookupEntries d.entries k

def Dict.set {α : Type} (d : Dict α) (k : String) (v : α) : Dict α :=
  ⟨setEntries d.entries k v⟩

def Dict.isEmpty {α : Type} (d : Dict α) : Bool :=
  d.entries.isEmpty

def Dict.keys {α : Type} (d : Dict α) : List String :=
  d.entries.map Prod.fst

def Dict.empty {α : Type} : Dict α :=
  ⟨[]⟩

/-- Python `SyntheticEngine` state (lines 80-83): `state[symbol][tf_name] = bar`
plus the name-keyed config table `{cfg.name: cfg for cfg in tf_configs}`. -/
structure SyntheticEngine where
  state : Dict (Dict SyntheticCandle)
  tf_configs : Dict TimeframeConfig
deriving DecidableEq, Repr

/-- Python `SyntheticEngine.__init__` (lines 80-83): stores the configs keyed by
name (later duplicates overwrite earlier ones, dict-comprehension style);
performs no validation. -/
def SyntheticEngine.init (cfgs : List TimeframeConfig) : SyntheticEngine :=
  { state := Dict.empty,
    tf_configs := cfgs.foldl (fun d cfg => d.set cfg.name cfg) Dict.empty }

/-- Python `SyntheticEngine._bounds_duration` (lines 85-88):
`start_ts = ts - (ts % size_seconds)`, `end_ts = start_ts + size_seconds`.
Returns `none` where Python raises: `size_seconds` absent (`TypeError` on
`ts % None`) or zero (`ZeroDivisionError`). -/
def SyntheticEngine.bounds_duration (ts : Int) (size_seconds : Option Int) :
    Option (Int × Int) :=
  match size_seconds with
  | none => none
  | some s =>
    if s = 0 then none
    else
      let start_ts := ts - ts.fmod s
      some (start_ts, start_ts + s)

/-- Python `SyntheticEngine._bounds_calendar` (lines 90-141), branch for branch;
civil arithmetic via `civilFromDays` / `timestampOfCivil` (UTC process
timezone). -/
def SyntheticEngine.bounds_calendar (ts : Int) (cfg : TimeframeConfig) : Int × Int :=
  let days := ts.fdiv 86400
  let ymd := civilFromDays days
  let y := ymd.1
  let m := ymd.2.1
  let d := ymd.2.2
  if cfg.calendar_type = some "day" then
    let start := timestampOfCivil y m d
    (start, start + 86400)
  else if cfg.calendar_type = some "week" then
    let sd := civilFromDays (days - utcWeekday ts)
    let start := timestampOfCivil sd.1 sd.2.1 sd.2.2
    (start, start + 7 * 86400)
  else if cfg.calendar_type = some "month" then
    let start := timestampOfCivil y m 1
    let stop := if m = 12 then timestampOfCivil (y + 1) 1 1
                else timestampOfCivil y (m + 1) 1
    (start, stop)
  else if cfg.calendar_type = some "quarter" then
    let qIndex := (m - 1).fdiv 3
    let firstMonth := 1 + 3 * qIndex
    let start := timestampOfCivil y firstMonth 1
    let endMonth := firstMonth + 3
    let stop := if endMonth > 12 then timestampOfCivil (y + 1) (endMonth - 12) 1
                else timestampOfCivil y endMonth 1
    (start, stop)
  else if cfg.calendar_type = some "year" then
    (timestampOfCivil y 1 1, timestampOfCivil (y + 1) 1 1)
  else
    match cfg.years_span with
    | some span =>
      if cfg.calendar_type = some "multi-year" ∧ span ≠ 0 then
        let baseYear := y.fdiv span * span
        (timestampOfCivil baseYear 1 1, timestampOfCivil (baseYear + span) 1 1)
      else
        (timestampOfCivil y 1 1, timestampOfCivil (y + 1) 1 1)
    | none =>
      (timestampOfCivil y 1 1, timestampOfCivil (y + 1) 1 1)

/-- Python `SyntheticEngine._bounds_for_tf` (lines 143-146). -/
def SyntheticEngine.bounds_for_tf (ts : Int) (cfg : TimeframeConfig) :
    Option (Int × Int) :=
  if cfg.kind = "duration" then SyntheticEngine.bounds_duration ts cfg.size_seconds
  else some (SyntheticEngine.bounds_calendar ts cfg)

/-- One iteration of the loop body of `SyntheticEngine.ingest_tick`
(lines 156-166). `none` models the Python exception escaping from bounds
resolution (raised before `self.state[symbol]` is touched in that
iteration). The `defaultdict(dict)` materialization of `self.state[symbol]`
is the `getD Dict.empty` followed by the write-back. -/
def ingest_step (symbol : String) (price volume : ℚ) (ts : Int)
    (st : Dict (Dict SyntheticCandle)) (tf_name : String) (cfg : TimeframeConfig) :
    Option (Dict (Dict SyntheticCandle)) :=
  match SyntheticEngine.bounds_for_tf ts cfg with
  | none => none
  | some (start_ts, end_ts) =>
    let sym_state := (st.get symbol).getD Dict.empty
    match sym_state.get tf_name with
    | some b =>
      if b.start_ts = start_ts ∧ b.end_ts = end_ts then
        some (st.set symbol (sym_state.set tf_name (b.update price volume)))
      else
        some (st.set symbol
          (sym_state.set tf_name (SyntheticCandle.create start_ts end_ts price volume)))
    | none =>
      some (st.set symbol
        (sym_state.set tf_name (SyntheticCandle.create start_ts end_ts price volume)))

/-- The `for tf_name, cfg in self.tf_configs.items()` loop of `ingest_tick`:
state threaded in insertion order; an exception aborts the loop but keeps
the mutations already performed, exactly as in-place Python mutation
would. -/
def ingest_loop (symbol : String) (price volume : ℚ) (ts : Int) :
    Dict (Dict SyntheticCandle) → List (String × TimeframeConfig) →
    Dict (Dict SyntheticCandle) × Option String
  | st, [] => (st, none)
  | st, (tf_name, cfg) :: rest =>
    match ingest_step symbol price volume ts st tf_name cfg with
    | none => (st, some "bounds-resolution exception")
    | some st2 => ingest_loop symbol price volume ts st2 rest

/-- Python `SyntheticEngine.ingest_tick` (lines 148-166). The second component is
the exception escaping the call, if any; `none` means a normal return. -/
def SyntheticEngine.ingest_tick (e : SyntheticEngine) (symbol : String)
    (price volume : ℚ) (ts : Int) : SyntheticEngine × Option String :=
  if e.tf_configs.isEmpty then (e, none)
  else
    let r := ingest_loop symbol price volume ts e.state e.tf_configs.entries
    ({ e with state := r.1 }, r.2)

/-- Python `SyntheticEngine.get_candle` (lines 168-178): two `dict.get` reads (no
`defaultdict` materialization), `if not sym_state` catching both an absent
and an empty inner dict, then `bar.to_dict()` with no `now_ts` argument.
The engine is returned alongside the value to make the (absence of) state
mutation explicit. -/
def SyntheticEngine.get_candle (e : SyntheticEngine) (symbol tf_name : String)
    (wallClock : Int) : Option BarView × SyntheticEngine :=
  match e.state.get symbol with
  | none => (none, e)
  | some sym_state =>
    if sym_state.isEmpty then (none, e)
    else
      match sym_state.get tf_name with
      | none => (none, e)
      | some bar => (some (bar.to_dict none wallClock), e)

/-- The Bar currently stored for `(symbol, tf_name)`, reading through the
`defaultdict` the way `ingest_tick` does. -/
def slotOf (st : Dict (Dict SyntheticCandle)) (symbol tf_name : String) :
    Option SyntheticCandle :=
  ((st.get symbol).getD Dict.empty).get tf_name

/-- The Bar a single `ingest_tick` loop iteration stores: a fresh Bar seeded
by the tick when the slot is empty or its bounds differ from the resolved
ones, the in-place update otherwise (lines 161-166). -/
def next_bar (old : Option SyntheticCandle) (start_ts end_ts : Int)
    (price volume : ℚ) : SyntheticCandle :=
  match old with
  | some b =>
    if b.start_ts = start_ts ∧ b.end_ts = end_ts then b.update price volume
    else SyntheticCandle.create start_ts end_ts price volume
  | none => SyntheticCandle.create start_ts end_ts price volume

/-- A sequence of `update` calls applied in order. -/
def SyntheticCandle.applyUpdates (b : SyntheticCandle) (us : List (ℚ × ℚ)) :
    SyntheticCandle :=
  us.foldl (fun b2 u => b2.update u.1 u.2) b

/-- The values `get_candle` returns across `n` consecutive calls, each one
made against the engine state the previous call left behind. -/
def get_candle_repeat (e : SyntheticEngine) (symbol tf_name : String)
    (wallClock : Int) : Nat → List (Option BarView)
  | 0 => []
  | n + 1 =>
    let r := e.get_candle symbol tf_name wallClock
    r.1 :: get_candle_repeat r.2 symbol tf_name wallClock n

lemma lookupEntries_set_self {α : Type} (l : List (String × α)) (k : String) (v : α) :
    lookupEntries (setEntries l k v) k = some v := by
  induction l with
  | nil => simp [setEntries, lookupEntries]
  | cons hd tl ih =>
    by_cases hk : hd.1 = k
    · simp [setEntries, hk, lookupEntries]
    · simp [setEntries, hk, lookupEntries, ih]

lemma lookupEntries_set_other {α : Type} (l : List (String × α)) (k k2 : String)
    (v : α) (hne : k ≠ k2) :
    lookupEntries (setEntries l k v) k2 = lookupEntries l k2 := by
  induction l with
  | nil => simp [setEntries, lookupEntries, hne]
  | cons hd tl ih =>
    by_cases hk : hd.1 = k
    · simp [setEntries, hk, lookupEntries, hne]
    · simp [setEntries, hk, lookupEntries, ih]

lemma Dict.get_set_self {α : Type} (d : Dict α) (k : String) (v : α) :
    (d.set k v).get k = some v :=
  lookupEntries_set_self d.entries k v

lemma Dict.get_set_other {α : Type} (d : Dict α) (k k2 : String) (v : α)
    (hne : k ≠ k2) : (d.set k v).get k2 = d.get k2 :=
  lookupEntries_set_other d.entries k k2 v hne

lemma lookupEntries_isSome_set {α : Type} (l : List (String × α)) (k k2 : String)
    (v : α) (hs : (lookupEntries l k2).isSome) :
    (lookupEntries (setEntries l k v) k2).isSome := by
  by_cases hk : k = k2
  · subst hk; simp [lookupEntries_set_self]
  · rwa [lookupEntries_set_other _ _ _ _ hk]

lemma ingest_step_eq (symbol : String) (price volume : ℚ) (ts : Int)
    (st : Dict (Dict SyntheticCandle)) (tf_name : String) (cfg : TimeframeConfig)
    (s en : Int) (hb : SyntheticEngine.bounds_for_tf ts cfg = some (s, en)) :
    ingest_step symbol price volume ts st tf_name cfg
      = some (st.set symbol
          (((st.get symbol).getD Dict.empty).set tf_name
            (next_bar (slotOf st symbol tf_name) s en price volume))) := by
  simp only [ingest_step, hb, slotOf, next_bar]
  cases hbar : ((st.get symbol).getD Dict.empty).get tf_name with
  | none => simp
  | some b =>
    by_cases hm : b.start_ts = s ∧ b.end_ts = en
    · simp [hm]
    · simp [hm]

lemma slotOf_write_self (st : Dict (Dict SyntheticCandle)) (symbol tf_name : String)
    (bar : SyntheticCandle) :
    slotOf (st.set symbol (((st.get symbol).getD Dict.empty).set tf_name bar))
      symbol tf_name = some bar := by
  simp only [slotOf, Dict.get_set_self, Option.getD_some, Dict.get_set_self]

lemma slotOf_write_other (st : Dict (Dict SyntheticCandle)) (symbol n n2 : String)
    (bar : SyntheticCandle) (hne : n ≠ n2) :
    slotOf (st.set symbol (((st.get symbol).getD Dict.empty).set n bar)) symbol n2
      = slotOf st symbol n2 := by
  simp only [slotOf, Dict.get_set_self, Option.getD_some, Dict.get_set_other _ _ _ _ hne]

lemma ingest_loop_preserves (symbol : String) (price volume : ℚ) (ts : Int)
    (L : List (String × TimeframeConfig)) (st : Dict (Dict SyntheticCandle))
    (n : String)
    (hwf : ∀ pr ∈ L, (SyntheticEngine.bounds_for_tf ts pr.2).isSome)
    (hn : n ∉ L.map Prod.fst) :
    slotOf (ingest_loop symbol price volume ts st L).1 symbol n
      = slotOf st symbol n := by
  induction L generalizing st with
  | nil => rfl
  | cons hd tl ih =>
    obtain ⟨n0, cfg0⟩ := hd
    obtain ⟨⟨s0, en0⟩, hb0⟩ :=
      Option.isSome_iff_exists.mp (hwf (n0, cfg0) (List.mem_cons_self _ _))
    rw [ingest_loop, ingest_step_eq symbol price volume ts st n0 cfg0 s0 en0 hb0]
    have hn' : n ≠ n0 ∧ n ∉ tl.map Prod.fst := by
      simpa [List.mem_cons] using hn
    rw [ih _ (fun pr hpr => hwf pr (List.mem_cons_of_mem _ hpr)) hn'.2,
      slotOf_write_other st symbol n0 n _ (fun h => hn'.1 h.symm)]

lemma ingest_loop_no_error (symbol : String) (price volume : ℚ) (ts : Int)
    (L : List (String × TimeframeConfig)) (st : Dict (Dict SyntheticCandle))
    (hwf : ∀ pr ∈ L, (SyntheticEngine.bounds_for_tf ts pr.2).isSome) :
    (ingest_loop symbol price volume ts st L).2 = none := by
  induction L generalizing st with
  | nil => rfl
  | cons hd tl ih =>
    obtain ⟨n0, cfg0⟩ := hd
    obtain ⟨⟨s0, en0⟩, hb0⟩ :=
      Option.isSome_iff_exists.mp (hwf (n0, cfg0) (List.mem_cons_self _ _))
    rw [ingest_loop, ingest_step_eq symbol price volume ts st n0 cfg0 s0 en0 hb0]
    exact ih _ (fun pr hpr => hwf pr (List.mem_cons_of_mem _ hpr))

lemma ingest_loop_slot (symbol : String) (price volume : ℚ) (ts : Int)
    (L : List (String × TimeframeConfig)) (st : Dict (Dict SyntheticCandle))
    (n : String) (cfg : TimeframeConfig) (s en : Int)
    (hwf : ∀ pr ∈ L, (SyntheticEngine.bounds_for_tf ts pr.2).isSome)
    (hnd : (L.map Prod.fst).Nodup)
    (hmem : (n, cfg) ∈ L)
    (hb : SyntheticEngine.bounds_for_tf ts cfg = some (s, en)) :
    slotOf (ingest_loop symbol price volume ts st L).1 symbol n
      = some (next_bar (slotOf st symbol n) s en price volume) := by
  induction L generalizing st with
  | nil => cases hmem
  | cons hd tl ih =>
    obtain ⟨n0, cfg0⟩ := hd
    obtain ⟨⟨s0, en0⟩, hb0⟩ :=
      Option.isSome_iff_exists.mp (hwf (n0, cfg0) (List.mem_cons_self _ _))
    rw [ingest_loop, ingest_step_eq symbol price volume ts st n0 cfg0 s0 en0 hb0]
    have hnotin : n0 ∉ tl.map Prod.fst := (List.nodup_cons.mp hnd).1
    rcases List.mem_cons.mp hmem with heq | htl
    · obtain ⟨h1, h2⟩ := Prod.mk.injEq n0 cfg0 n cfg ▸ heq.symm
      subst h1; subst h2
      have hse : s0 = s ∧ en0 = en := by
        have := hb0.symm.trans hb
        exact ⟨congrArg Prod.fst (Option.some.inj this),
          congrArg Prod.snd (Option.some.inj this)⟩
      obtain ⟨hs1, hs2⟩ := hse; subst hs1; subst hs2
      rw [ingest_loop_preserves symbol price volume ts tl _ n0
        (fun pr hpr => hwf pr (List.mem_cons_of_mem _ hpr)) hnotin,
        slotOf_write_self]
    · have hne : n0 ≠ n := by
        intro hcontra
        exact hnotin (hcontra ▸ (List.mem_map.mpr ⟨(n, cfg), htl, rfl⟩))
      rw [ih _ (fun pr hpr => hwf pr (List.mem_cons_of_mem _ hpr))
        (List.nodup_cons.mp hnd).2 htl,
        slotOf_write_other st symbol n0 n _ hne]

lemma ingest_tick_configs (e : SyntheticEngine) (symbol : String)
    (price volume : ℚ) (ts : Int) :
    (e.ingest_tick symbol price volume ts).1.tf_configs = e.tf_configs := by
  unfold SyntheticEngine.ingest_tick
  split <;> rfl

lemma ingest_tick_no_error (e : SyntheticEngine) (symbol : String)
    (price volume : ℚ) (ts : Int)
    (hwf : ∀ pr ∈ e.tf_configs.entries, (SyntheticEngine.bounds_for_tf ts pr.2).isSome) :
    (e.ingest_tick symbol price volume ts).2 = none := by
  unfold SyntheticEngine.ingest_tick
  split
  · rfl
  · exact ingest_loop_no_error symbol price volume ts e.tf_configs.entries e.state hwf

lemma ingest_tick_slot (e : SyntheticEngine) (symbol : String)
    (price volume : ℚ) (ts : Int) (n : String) (cfg : TimeframeConfig) (s en : Int)
    (hwf : ∀ pr ∈ e.tf_configs.entries, (SyntheticEngine.bounds_for_tf ts pr.2).isSome)
    (hnd : e.tf_configs.keys.Nodup)
    (hmem : (n, cfg) ∈ e.tf_configs.entries)
    (hb : SyntheticEngine.bounds_for_tf ts cfg = some (s, en)) :
    slotOf (e.ingest_tick symbol price volume ts).1.state symbol n
      = some (next_bar (slotOf e.state symbol n) s en price volume) := by
  unfold SyntheticEngine.ingest_tick
  split
  · next hemp =>
    exfalso
    have : e.tf_configs.entries = [] := by
      simpa [Dict.isEmpty, List.isEmpty_iff] using hemp
    rw [this] at hmem; cases hmem
  · exact ingest_loop_slot symbol price volume ts e.tf_configs.entries e.state
      n cfg s en hwf hnd hmem hb

lemma fmod_nonneg_of_pos (t S : Int) (hS : 0 < S) : 0 ≤ t.fmod S := by
  rw [Int.fmod_eq_emod _ (le_of_lt hS)]
  exact Int.emod_nonneg t (ne_of_gt hS)

lemma fmod_lt_of_pos (t S : Int) (hS : 0 < S) : t.fmod S < S := by
  rw [Int.fmod_eq_emod _ (le_of_lt hS)]
  exact Int.emod_lt_of_pos t hS

lemma sub_fmod_self_fmod (t S : Int) (hS : 0 < S) : (t - t.fmod S).fmod S = 0 := by
  rw [Int.fmod_eq_emod _ (le_of_lt hS), Int.fmod_eq_emod _ (le_of_lt hS)]
  have h := Int.ediv_add_emod t S
  have h2 : t - t % S = S * (t / S) := by linarith
  rw [h2, Int.mul_emod_right]

lemma fmod_add_self (t S : Int) (hS : 0 < S) : (t + S).fmod S = t.fmod S := by
  rw [Int.fmod_eq_emod _ (le_of_lt hS), Int.fmod_eq_emod _ (le_of_lt hS)]
  have h : t + S = t + S * 1 := by ring
  rw [h, Int.add_mul_emod_self_left]

lemma mem_keys_setEntries {α : Type} (l : List (String × α)) (k x : String) (v : α) :
    x ∈ (setEntries l k v).map Prod.fst ↔ x ∈ l.map Prod.fst ∨ x = k := by
  induction l with
  | nil => simp [setEntries]
  | cons hd tl ih =>
    by_cases hk : hd.1 = k
    · subst hk
      simp [setEntries]
      tauto
    · simp [setEntries, hk, ih]
      tauto

lemma setEntries_keys_nodup {α : Type} (l : List (String × α)) (k : String) (v : α)
    (h : (l.map Prod.fst).Nodup) : ((setEntries l k v).map Prod.fst).Nodup := by
  induction l with
  | nil => simp [setEntries]
  | cons hd tl ih =>
    obtain ⟨k0, v0⟩ := hd
    have h' := h
    rw [List.map_cons] at h'
    obtain ⟨hhd, htl⟩ := List.nodup_cons.mp h'
    by_cases hk : k0 = k
    · subst hk
      simpa [setEntries] using h'
    · simp only [setEntries, hk, if_false, List.map_cons, List.nodup_cons]
      refine ⟨?_, ih htl⟩
      rw [mem_keys_setEntries]
      rintro (hmem | hmem)
      · exact hhd hmem
      · exact hk hmem

lemma Dict.get_set_isSome {α : Type} (d : Dict α) (k k2 : String) (v : α)
    (hs : (d.get k2).isSome) : ((d.set k v).get k2).isSome :=
  lookupEntries_isSome_set d.entries k k2 v hs

lemma init_keys_nodup (cfgs : List TimeframeConfig) :
    (SyntheticEngine.init cfgs).tf_configs.keys.Nodup := by
  suffices h : ∀ d : Dict TimeframeConfig, d.keys.Nodup →
      ((cfgs.foldl (fun d2 cfg => d2.set cfg.name cfg) d).keys).Nodup by
    exact h Dict.empty (by simp [Dict.empty, Dict.keys])
  induction cfgs with
  | nil => intro d hd; simpa using hd
  | cons c tl ih =>
    intro d hd
    exact ih _ (setEntries_keys_nodup d.entries c.name c hd)

lemma init_get_isSome (cfgs : List TimeframeConfig) (cfg : TimeframeConfig)
    (hmem : cfg ∈ cfgs) :
    ((SyntheticEngine.init cfgs).tf_configs.get cfg.name).isSome := by
  suffices h : ∀ (L : List TimeframeConfig) (d : Dict TimeframeConfig),
      cfg ∈ L ∨ (d.get cfg.name).isSome →
      ((L.foldl (fun d2 c => d2.set c.name c) d).get cfg.name).isSome by
    exact h cfgs Dict.empty (Or.inl hmem)
  intro L
  induction L with
  | nil =>
    intro d h
    rcases h with h | h
    · cases h
    · exact h
  | cons c tl ih =>
    intro d h
    apply ih
    rcases h with h | h
    · rcases List.mem_cons.mp h with heq | htl
      · right; subst heq; simp [Dict.get_set_self]
      · left; exact htl
    · right; exact Dict.get_set_isSome d c.name cfg.name c h

lemma get_candle_frame (e : SyntheticEngine) (symbol tf_name : String)
    (wallClock : Int) : (e.get_candle symbol tf_name wallClock).2 = e := by
  unfold SyntheticEngine.get_candle
  cases e.state.get symbol with
  | none => rfl
  | some sym_state =>
    by_cases hemp : sym_state.isEmpty
    · simp [hemp]
    · simp only [hemp, Bool.false_eq_true, if_false]
      cases sym_state.get tf_name with
      | none => rfl
      | some bar => rfl

/-- The price-ordering invariant the spec states for Bars. -/
def candleInv (b : SyntheticCandle) : Prop :=
  b.l ≤ b.o ∧ b.o ≤ b.h ∧ b.l ≤ b.c ∧ b.c ≤ b.h

lemma create_candleInv (start_ts end_ts : Int) (price volume : ℚ) :
    candleInv (SyntheticCandle.create start_ts end_ts price volume) := by
  unfold candleInv SyntheticCandle.create
  refine ⟨le_refl _, le_refl _, le_refl _, le_refl _⟩

lemma update_candleInv (b : SyntheticCandle) (price volume : ℚ)
    (h : candleInv b) : candleInv (b.update price volume) := by
  obtain ⟨h1, h2, h3, h4⟩ := h
  unfold candleInv SyntheticCandle.update
  simp only
  split_ifs with hh hl hl
  · exact ⟨by linarith, by linarith, by linarith, by linarith⟩
  · exact ⟨by linarith, by linarith, by linarith, by linarith⟩
  · exact ⟨by linarith, by linarith, by linarith, by linarith⟩
  · exact ⟨by linarith, by linarith, by linarith, by linarith⟩

lemma applyUpdates_candleInv (b : SyntheticCandle) (us : List (ℚ × ℚ))
    (h : candleInv b) : candleInv (b.applyUpdates us) := by
  induction us generalizing b with
  | nil => exact h
  | cons u tl ih =>
    exact ih _ (update_candleInv b u.1 u.2 h)

lemma next_bar_stale (b : SyntheticCandle) (s en : Int) (price volume : ℚ)
    (h : ¬(b.start_ts = s ∧ b.end_ts = en)) :
    next_bar (some b) s en price volume = SyntheticCandle.create s en price volume := by
  simp [next_bar, h]

lemma next_bar_bounds (old : Option SyntheticCandle) (s en : Int) (price volume : ℚ) :
    (next_bar old s en price volume).start_ts = s
    ∧ (next_bar old s en price volume).end_ts = en := by
  cases old with
  | none => exact ⟨rfl, rfl⟩
  | some b =>
    by_cases hc : b.start_ts = s ∧ b.end_ts = en
    · simp only [next_bar, if_pos hc, SyntheticCandle.update]
      exact ⟨hc.1, hc.2⟩
    · simp [next_bar, hc, SyntheticCandle.create]

/-- C5: for every timestamp `t` and Duration descriptor of positive size `S`,
the resolved bounds are `startTs = t - (t mod S)` and `endTs = startTs + S`;
`startTs mod S = 0` (epoch-aligned buckets), `t` lies in `[startTs, endTs)`,
and a timestamp exactly on a boundary belongs to the bucket it starts. -/
theorem c5_duration_bounds (t S : Int) (hS : 0 < S) :
    SyntheticEngine.bounds_duration t (some S) = some (t - t.fmod S, t - t.fmod S + S)
    ∧ (t - t.fmod S).fmod S = 0
    ∧ t - t.fmod S ≤ t
    ∧ t < t - t.fmod S + S
    ∧ (t.fmod S = 0 → t - t.fmod S = t) := by
  have h0 := fmod_nonneg_of_pos t S hS
  have h1 := fmod_lt_of_pos t S hS
  have hSne : S ≠ 0 := by omega
  refine ⟨?_, sub_fmod_self_fmod t S hS, by linarith, by linarith, fun h => by rw [h]; ring⟩
  simp [SyntheticEngine.bounds_duration, hSne]

/-- Witness for C5 at `t = 7`, `S = 3`: bucket `[6, 9)`. -/
theorem c5_witness :
    (0 : Int) < 3
    ∧ (SyntheticEngine.bounds_duration 7 (some 3)
          = some (7 - Int.fmod 7 3, 7 - Int.fmod 7 3 + 3)
        ∧ ((7 : Int) - Int.fmod 7 3).fmod 3 = 0
        ∧ (7 : Int) - Int.fmod 7 3 ≤ 7
        ∧ (7 : Int) < 7 - Int.fmod 7 3 + 3
        ∧ (Int.fmod 7 3 = 0 → (7 : Int) - Int.fmod 7 3 = 7)) :=
  ⟨by decide, c5_duration_bounds 7 3 (by decide)⟩

/-- C6: every Bar produced by `create` and mutated by any sequence of
`update` calls satisfies `low ≤ open ≤ high` and `low ≤ close ≤ high`
(`candleInv`); `create` establishes it by setting all four prices equal. -/
theorem c6_bar_price_invariant (start_ts end_ts : Int) (price volume : ℚ)
    (us : List (ℚ × ℚ)) :
    candleInv ((SyntheticCandle.create start_ts end_ts price volume).applyUpdates us) :=
  applyUpdates_candleInv _ us (create_candleInv start_ts end_ts price volume)

/-- C7 counterexample: the claim promises `elapsed = max(0, nowTs - startTs)`
and `complete = (nowTs >= endTs)` for every supplied query time, but a
supplied `nowTs = 0` is falsy in `now_ts or time.time()` and is silently
replaced by the wall clock: with the bar `[0, 10)` and wall clock 1000 the
snapshot at `nowTs = 0` reports `elapsed = 1000` (not `0`) and
`complete = true` (not `false`). -/
theorem c7_counterexample :
    ((SyntheticCandle.create 0 10 100 0).to_dict (some 0) 1000).elapsed
        ≠ max 0 ((0 : Int) - 0)
    ∧ ((SyntheticCandle.create 0 10 100 0).to_dict (some 0) 1000).complete
        ≠ decide ((0 : Int) ≥ 10) := by
  decide

/-- C7 (amended): the snapshot formulas `elapsed = max(0, nowTs - startTs)`,
`totalSpan = max(1, endTs - startTs)`, `remaining = max(0, totalSpan -
elapsed)` and `complete = (nowTs ≥ endTs)` hold for every supplied
`nowTs ≠ 0`; an absent `nowTs` — and, because Python treats `0` as falsy in
`now_ts or time.time()`, also a supplied `nowTs = 0` — is replaced by the
wall-clock time, for which the same formulas then hold. -/
theorem c7_amended (b : SyntheticCandle) (now wallClock : Int) (h : now ≠ 0) :
    (b.to_dict (some now) wallClock).elapsed = max 0 (now - b.start_ts)
    ∧ (b.to_dict (some now) wallClock).remaining
        = max 0 (max 1 (b.end_ts - b.start_ts) - max 0 (now - b.start_ts))
    ∧ (b.to_dict (some now) wallClock).complete = decide (now ≥ b.end_ts)
    ∧ (b.to_dict none wallClock).elapsed = max 0 (wallClock - b.start_ts)
    ∧ (b.to_dict none wallClock).remaining
        = max 0 (max 1 (b.end_ts - b.start_ts) - max 0 (wallClock - b.start_ts))
    ∧ (b.to_dict none wallClock).complete = decide (wallClock ≥ b.end_ts)
    ∧ (b.to_dict (some 0) wallClock).elapsed = max 0 (wallClock - b.start_ts)
    ∧ (b.to_dict (some 0) wallClock).remaining
        = max 0 (max 1 (b.end_ts - b.start_ts) - max 0 (wallClock - b.start_ts))
    ∧ (b.to_dict (some 0) wallClock).complete = decide (wallClock ≥ b.end_ts) := by
  simp [SyntheticCandle.to_dict, h, ge_iff_le]

/-- Witness for C7 (amended) at the bar `[0, 10)`, `nowTs = 5`, wall clock
99. -/
theorem c7_witness :
    (5 : Int) ≠ 0
    ∧ (((SyntheticCandle.create 0 10 100 0).to_dict (some 5) 99).elapsed
          = max 0 ((5 : Int) - (SyntheticCandle.create 0 10 100 0).start_ts)
        ∧ ((SyntheticCandle.create 0 10 100 0).to_dict (some 5) 99).remaining
          = max 0 (max 1 ((SyntheticCandle.create 0 10 100 0).end_ts
              - (SyntheticCandle.create 0 10 100 0).start_ts)
            - max 0 ((5 : Int) - (SyntheticCandle.create 0 10 100 0).start_ts))
        ∧ ((SyntheticCandle.create 0 10 100 0).to_dict (some 5) 99).complete
          = decide ((5 : Int) ≥ (SyntheticCandle.create 0 10 100 0).end_ts)
        ∧ ((SyntheticCandle.create 0 10 100 0).to_dict none 99).elapsed
          = max 0 ((99 : Int) - (SyntheticCandle.create 0 10 100 0).start_ts)
        ∧ ((SyntheticCandle.create 0 10 100 0).to_dict none 99).remaining
          = max 0 (max 1 ((SyntheticCandle.create 0 10 100 0).end_ts
              - (SyntheticCandle.create 0 10 100 0).start_ts)
            - max 0 ((99 : Int) - (SyntheticCandle.create 0 10 100 0).start_ts))
        ∧ ((SyntheticCandle.create 0 10 100 0).to_dict none 99).complete
          = decide ((99 : Int) ≥ (SyntheticCandle.create 0 10 100 0).end_ts)
        ∧ ((SyntheticCandle.create 0 10 100 0).to_dict (some 0) 99).elapsed
          = max 0 ((99 : Int) - (SyntheticCandle.create 0 10 100 0).start_ts)
        ∧ ((SyntheticCandle.create 0 10 100 0).to_dict (some 0) 99).remaining
          = max 0 (max 1 ((SyntheticCandle.create 0 10 100 0).end_ts
              - (SyntheticCandle.create 0 10 100 0).start_ts)
            - max 0 ((99 : Int) - (SyntheticCandle.create 0 10 100 0).start_ts))
        ∧ ((SyntheticCandle.create 0 10 100 0).to_dict (some 0) 99).complete
          = decide ((99 : Int) ≥ (SyntheticCandle.create 0 10 100 0).end_ts)) :=
  ⟨by decide, c7_amended (SyntheticCandle.create 0 10 100 0) 5 99 (by decide)⟩

/-- C8: a non-duration descriptor whose calendar unit is not one of the
recognized units resolves (without error — the resolver is total) to the
Year bucket `[Jan 1 of the timestamp's UTC year, Jan 1 of the following
year)`. -/
theorem c8_calendar_fallback (ts : Int) (cfg : TimeframeConfig)
    (hk : cfg.kind ≠ "duration")
    (hu : cfg.calendar_type ∉ ([some "day", some "week", some "month",
        some "quarter", some "year", some "multi-year"] : List (Option String))) :
    SyntheticEngine.bounds_for_tf ts cfg
      = some (timestampOfCivil (utcCivil ts).1 1 1,
              timestampOfCivil ((utcCivil ts).1 + 1) 1 1) := by
  have h1 : cfg.calendar_type ≠ some "day" := by intro h; exact hu (by simp [h])
  have h2 : cfg.calendar_type ≠ some "week" := by intro h; exact hu (by simp [h])
  have h3 : cfg.calendar_type ≠ some "month" := by intro h; exact hu (by simp [h])
  have h4 : cfg.calendar_type ≠ some "quarter" := by intro h; exact hu (by simp [h])
  have h5 : cfg.calendar_type ≠ some "year" := by intro h; exact hu (by simp [h])
  have h6 : cfg.calendar_type ≠ some "multi-year" := by intro h; exact hu (by simp [h])
  unfold SyntheticEngine.bounds_for_tf SyntheticEngine.bounds_calendar
  rw [if_neg hk]
  cases hys : cfg.years_span with
  | none => simp [h1, h2, h3, h4, h5, utcCivil]
  | some span => simp [h1, h2, h3, h4, h5, h6, utcCivil]

/-- Witness for C8: a config with the typo unit `decade` at
2024-02-15T12:00:00Z falls back to the 2024 Year bucket. -/
theorem c8_witness :
    ((⟨"x", "calendar", none, some "decade", none⟩ : TimeframeConfig).kind ≠ "duration")
    ∧ SyntheticEngine.bounds_for_tf 1707998400
        ⟨"x", "calendar", none, some "decade", none⟩
      = some (timestampOfCivil (utcCivil 1707998400).1 1 1,
              timestampOfCivil ((utcCivil 1707998400).1 + 1) 1 1) :=
  ⟨by decide, c8_calendar_fallback 1707998400 ⟨"x", "calendar", none, some "decade", none⟩
    (by decide) (by decide)⟩

/-- C9: queries are idempotent and deterministic — `n` consecutive
`get_candle` calls against the states each call leaves behind, with the same
wall clock and no intervening ticks, all return the first call's snapshot
(the snapshot is a pure function of the Bar fields and the query time). -/
theorem c9_get_candle_idempotent (e : SyntheticEngine) (symbol tf_name : String)
    (wallClock : Int) (n : Nat) :
    get_candle_repeat e symbol tf_name wallClock n
      = List.replicate n (e.get_candle symbol tf_name wallClock).1 := by
  induction n with
  | zero => rfl
  | succ k ih =>
    rw [get_candle_repeat, get_candle_frame, ih, List.replicate_succ]

/-- C10: `get_candle` never mutates engine state — for every engine, symbol
and timeframe name (ticked or not, configured or not) the engine after the
call, including the set of symbol keys of the two-level state mapping, is
exactly the engine before it. -/
theorem c10_get_candle_pure (e : SyntheticEngine) (symbol tf_name : String)
    (wallClock : Int) :
    (e.get_candle symbol tf_name wallClock).2 = e
    ∧ (e.get_candle symbol tf_name wallClock).2.state.keys = e.state.keys := by
  refine ⟨get_candle_frame e symbol tf_name wallClock, ?_⟩
  rw [get_candle_frame]

/-- C2: for every timestamp, the Month rule returns the half-open interval
from the first of the timestamp's UTC month to the first of the next month,
rolling December into January of the next year; concretely, a tick at
2024-02-15T12:00:00Z (= 1707998400) resolves to [2024-02-01T00:00:00Z,
2024-03-01T00:00:00Z) = [1706745600, 1709251200), and a tick at 2024-12-20
(= 1734652800) resolves to [2024-12-01, 2025-01-01) = [1733011200,
1735689600). -/
theorem c2_month_bounds (ts : Int) (cfg : TimeframeConfig)
    (hm : cfg.calendar_type = some "month") :
    SyntheticEngine.bounds_calendar ts cfg
      = (timestampOfCivil (utcCivil ts).1 (utcCivil ts).2.1 1,
         if (utcCivil ts).2.1 = 12 then timestampOfCivil ((utcCivil ts).1 + 1) 1 1
         else timestampOfCivil (utcCivil ts).1 ((utcCivil ts).2.1 + 1) 1)
    ∧ SyntheticEngine.bounds_calendar 1707998400 cfg = (1706745600, 1709251200)
    ∧ SyntheticEngine.bounds_calendar 1734652800 cfg = (1733011200, 1735689600) := by
  have key : ∀ t : Int, SyntheticEngine.bounds_calendar t cfg
      = (timestampOfCivil (utcCivil t).1 (utcCivil t).2.1 1,
         if (utcCivil t).2.1 = 12 then timestampOfCivil ((utcCivil t).1 + 1) 1 1
         else timestampOfCivil (utcCivil t).1 ((utcCivil t).2.1 + 1) 1) := by
    intro t
    unfold SyntheticEngine.bounds_calendar
    simp [hm, utcCivil]
  refine ⟨key ts, ?_, ?_⟩
  · rw [key 1707998400]
    decide
  · rw [key 1734652800]
    decide

/-- Witness for C2 with the reference month config at 2024-02-15T12:00:00Z. -/
theorem c2_witness :
    ((⟨"month", "calendar", none, some "month", none⟩ : TimeframeConfig).calendar_type
        = some "month")
    ∧ (SyntheticEngine.bounds_calendar 1707998400
          ⟨"month", "calendar", none, some "month", none⟩
        = (timestampOfCivil (utcCivil 1707998400).1 (utcCivil 1707998400).2.1 1,
           if (utcCivil 1707998400).2.1 = 12
           then timestampOfCivil ((utcCivil 1707998400).1 + 1) 1 1
           else timestampOfCivil (utcCivil 1707998400).1 ((utcCivil 1707998400).2.1 + 1) 1)
        ∧ SyntheticEngine.bounds_calendar 1707998400
            ⟨"month", "calendar", none, some "month", none⟩ = (1706745600, 1709251200)
        ∧ SyntheticEngine.bounds_calendar 1734652800
            ⟨"month", "calendar", none, some "month", none⟩ = (1733011200, 1735689600)) :=
  ⟨by decide, c2_month_bounds 1707998400
    ⟨"month", "calendar", none, some "month", none⟩ (by decide)⟩

/-- C3 counterexample: the claim says a Duration descriptor with
`sizeSeconds ≤ 0` is rejected at construction time, but construction is a
total function that performs no validation: building the engine from the
single descriptor `size_seconds = 0` silently stores it in the config
table, and the failure only surfaces on the first tick, as an exception
escaping `ingest_tick` (Python's `ZeroDivisionError` from `ts % 0`). -/
theorem c3_counterexample :
    (SyntheticEngine.init [⟨"bad", "duration", some 0, none, none⟩]).tf_configs.get "bad"
        = some ⟨"bad", "duration", some 0, none, none⟩
    ∧ ((SyntheticEngine.init [⟨"bad", "duration", some 0, none, none⟩]).ingest_tick
        "SYM" 1 1 0).2 = some "bounds-resolution exception" := by
  decide

/-- C3 (amended): construction never rejects a descriptor — every config in
the list is silently accepted into the name-keyed table, including a
Duration descriptor with `sizeSeconds = 0`, whose invalid size only
surfaces later as a per-tick error from `ingest_tick`. -/
theorem c3_amended (cfgs : List TimeframeConfig) (cfg : TimeframeConfig)
    (hmem : cfg ∈ cfgs) (name symbol : String) (price volume : ℚ) (ts : Int) :
    ((SyntheticEngine.init cfgs).tf_configs.get cfg.name).isSome
    ∧ ((SyntheticEngine.init [⟨name, "duration", some 0, none, none⟩]).ingest_tick
        symbol price volume ts).2.isSome := by
  refine ⟨init_get_isSome cfgs cfg hmem, ?_⟩
  simp [SyntheticEngine.init, SyntheticEngine.ingest_tick, Dict.empty, Dict.set,
    setEntries, Dict.isEmpty, ingest_loop, ingest_step,
    SyntheticEngine.bounds_for_tf, SyntheticEngine.bounds_duration]

/-- Witness for C3 (amended): a valid 1-second duration config is accepted,
and the zero-size engine errors on a tick at `ts = 42`. -/
theorem c3_witness :
    ((⟨"1s", "duration", some 1, none, none⟩ : TimeframeConfig)
        ∈ [(⟨"1s", "duration", some 1, none, none⟩ : TimeframeConfig)])
    ∧ (((SyntheticEngine.init [⟨"1s", "duration", some 1, none, none⟩]).tf_configs.get
          (⟨"1s", "duration", some 1, none, none⟩ : TimeframeConfig).name).isSome
        ∧ ((SyntheticEngine.init [⟨"zero", "duration", some 0, none, none⟩]).ingest_tick
            "SYM" 2 3 42).2.isSome) :=
  ⟨by decide, c3_amended [⟨"1s", "duration", some 1, none, none⟩]
    ⟨"1s", "duration", some 1, none, none⟩ (by decide) "zero" "SYM" 2 3 42⟩

/-- C1 counterexample: the claim says a negative-volume tick is rejected
without mutating any Bar and an InvalidTick condition is reported, but
`ingest_tick` performs no validation: after a first normal tick
(price 100, volume 5) at `ts = 10` on a 1-second timeframe, ingesting
(price 99, volume -3) at the same timestamp changes the stored state (the
bar's close becomes 99 and its volume drops to 2) and no error condition is
reported (the call returns normally). -/
theorem c1_counterexample :
    ((((SyntheticEngine.init [⟨"1s", "duration", some 1, none, none⟩]).ingest_tick
          "S" 100 5 10).1.ingest_tick "S" 99 (-3) 10).1.state
        ≠ (((SyntheticEngine.init [⟨"1s", "duration", some 1, none, none⟩]).ingest_tick
          "S" 100 5 10).1.state))
    ∧ ((((SyntheticEngine.init [⟨"1s", "duration", some 1, none, none⟩]).ingest_tick
          "S" 100 5 10).1.ingest_tick "S" 99 (-3) 10).2 = none) := by
  decide

/-- C1 (amended): `ingest_tick` does not validate ticks. A tick with
negative volume is processed exactly like any other: the call reports no
error condition, and a stored Bar whose bounds match the tick's resolved
bounds is updated in place — its close becomes the tick's price and the
negative volume is added to (i.e. subtracted from) its volume accumulator —
rather than being left unchanged. -/
theorem c1_amended (e : SyntheticEngine) (symbol n : String) (cfg : TimeframeConfig)
    (price volume : ℚ) (ts s en : Int) (bar : SyntheticCandle)
    (hneg : volume < 0)
    (hnd : e.tf_configs.keys.Nodup)
    (hwf : ∀ pr ∈ e.tf_configs.entries, (SyntheticEngine.bounds_for_tf ts pr.2).isSome)
    (hmem : (n, cfg) ∈ e.tf_configs.entries)
    (hb : SyntheticEngine.bounds_for_tf ts cfg = some (s, en))
    (hbar : slotOf e.state symbol n = some bar)
    (hs : bar.start_ts = s) (hen : bar.end_ts = en) :
    (e.ingest_tick symbol price volume ts).2 = none
    ∧ slotOf (e.ingest_tick symbol price volume ts).1.state symbol n
        = some (bar.update price volume)
    ∧ (bar.update price volume).c = price
    ∧ (bar.update price volume).v = bar.v + volume := by
  refine ⟨ingest_tick_no_error e symbol price volume ts hwf, ?_, rfl, rfl⟩
  rw [ingest_tick_slot e symbol price volume ts n cfg s en hwf hnd hmem hb, hbar]
  simp [next_bar, hs, hen]

/-- Witness for C1 (amended): the engine after one tick (price 100,
volume 5) at `ts = 10`, then the negative-volume tick (price 99,
volume -3). -/
theorem c1_witness :
    ((-3 : ℚ) < 0)
    ∧ (((((SyntheticEngine.init [⟨"1s", "duration", some 1, none, none⟩]).ingest_tick
            "S" 100 5 10).1).ingest_tick "S" 99 (-3) 10).2 = none
        ∧ slotOf ((((SyntheticEngine.init
              [⟨"1s", "duration", some 1, none, none⟩]).ingest_tick
            "S" 100 5 10).1).ingest_tick "S" 99 (-3) 10).1.state "S" "1s"
          = some ((SyntheticCandle.create 10 11 100 5).update 99 (-3))
        ∧ ((SyntheticCandle.create 10 11 100 5).update 99 (-3)).c = 99
        ∧ ((SyntheticCandle.create 10 11 100 5).update 99 (-3)).v
          = (SyntheticCandle.create 10 11 100 5).v + (-3)) :=
  ⟨by decide, c1_amended
    (((SyntheticEngine.init [⟨"1s", "duration", some 1, none, none⟩]).ingest_tick
      "S" 100 5 10).1)
    "S" "1s" ⟨"1s", "duration", some 1, none, none⟩ 99 (-3) 10 10 11
    (SyntheticCandle.create 10 11 100 5)
    (by decide) (by decide) (by decide) (by decide) (by decide) (by decide)
    (by decide) (by decide)⟩

/-- C4: on `ingest_tick`, the slot for each configured timeframe — duration
or calendar, any kind (`cfg2` is arbitrary) — whose bounds resolve for the
tick's timestamp is replaced by a fresh Bar seeded by the tick when no Bar
exists or the stored bounds differ from the newly resolved ones, and updated
in place otherwise (`next_bar`); consequently, for a duration timeframe of
size `S`, two ticks at `t` and `t + S` leave a freshly created Bar whose
open equals the second tick's price. -/
theorem c4_rollover (e : SyntheticEngine) (symbol n n2 : String)
    (cfg cfg2 : TimeframeConfig) (S t ts2 s2 en2 : Int) (p1 v1 p2 v2 p v : ℚ)
    (hnd : e.tf_configs.keys.Nodup)
    (hwfg : ∀ pr ∈ e.tf_configs.entries, (SyntheticEngine.bounds_for_tf ts2 pr.2).isSome)
    (hmem2 : (n2, cfg2) ∈ e.tf_configs.entries)
    (hbg : SyntheticEngine.bounds_for_tf ts2 cfg2 = some (s2, en2))
    (hwf1 : ∀ pr ∈ e.tf_configs.entries, (SyntheticEngine.bounds_for_tf t pr.2).isSome)
    (hwf2 : ∀ pr ∈ e.tf_configs.entries,
      (SyntheticEngine.bounds_for_tf (t + S) pr.2).isSome)
    (hmem : (n, cfg) ∈ e.tf_configs.entries)
    (hk : cfg.kind = "duration") (hsz : cfg.size_seconds = some S) (hS : 0 < S) :
    slotOf (e.ingest_tick symbol p v ts2).1.state symbol n2
      = some (next_bar (slotOf e.state symbol n2) s2 en2 p v)
    ∧ slotOf (e.ingest_tick symbol p1 v1 t).1.state symbol n
      = some (next_bar (slotOf e.state symbol n) (t - t.fmod S) (t - t.fmod S + S) p1 v1)
    ∧ slotOf ((e.ingest_tick symbol p1 v1 t).1.ingest_tick symbol p2 v2 (t + S)).1.state
        symbol n
      = some (SyntheticCandle.create (t + S - (t + S).fmod S)
          (t + S - (t + S).fmod S + S) p2 v2)
    ∧ (slotOf ((e.ingest_tick symbol p1 v1 t).1.ingest_tick symbol p2 v2 (t + S)).1.state
        symbol n).map SyntheticCandle.o = some p2 := by
  have hgen := ingest_tick_slot e symbol p v ts2 n2 cfg2 s2 en2 hwfg hnd hmem2 hbg
  have hSne : S ≠ 0 := by omega
  have hb1 : SyntheticEngine.bounds_for_tf t cfg
      = some (t - t.fmod S, t - t.fmod S + S) := by
    simp [SyntheticEngine.bounds_for_tf, hk, SyntheticEngine.bounds_duration, hsz, hSne]
  have hb2 : SyntheticEngine.bounds_for_tf (t + S) cfg
      = some (t + S - (t + S).fmod S, t + S - (t + S).fmod S + S) := by
    simp [SyntheticEngine.bounds_for_tf, hk, SyntheticEngine.bounds_duration, hsz, hSne]
  have h1 := ingest_tick_slot e symbol p1 v1 t n cfg (t - t.fmod S) (t - t.fmod S + S)
    hwf1 hnd hmem hb1
  have hcfg1 : (e.ingest_tick symbol p1 v1 t).1.tf_configs = e.tf_configs :=
    ingest_tick_configs e symbol p1 v1 t
  have h2 := ingest_tick_slot (e.ingest_tick symbol p1 v1 t).1 symbol p2 v2 (t + S)
    n cfg (t + S - (t + S).fmod S) (t + S - (t + S).fmod S + S)
    (by rw [hcfg1]; exact hwf2) (by rw [hcfg1]; exact hnd) (by rw [hcfg1]; exact hmem) hb2
  have hshift : (t + S).fmod S = t.fmod S := fmod_add_self t S hS
  have hfirst : (next_bar (slotOf e.state symbol n) (t - t.fmod S) (t - t.fmod S + S)
      p1 v1).start_ts = t - t.fmod S :=
    (next_bar_bounds (slotOf e.state symbol n) (t - t.fmod S) (t - t.fmod S + S) p1 v1).1
  have hdiff : ¬((next_bar (slotOf e.state symbol n) (t - t.fmod S) (t - t.fmod S + S)
        p1 v1).start_ts = t + S - (t + S).fmod S
      ∧ (next_bar (slotOf e.state symbol n) (t - t.fmod S) (t - t.fmod S + S)
        p1 v1).end_ts = t + S - (t + S).fmod S + S) := by
    rintro ⟨hc, -⟩
    rw [hfirst, hshift] at hc
    omega
  have hsecond : slotOf ((e.ingest_tick symbol p1 v1 t).1.ingest_tick symbol p2 v2
      (t + S)).1.state symbol n
      = some (SyntheticCandle.create (t + S - (t + S).fmod S)
          (t + S - (t + S).fmod S + S) p2 v2) := by
    rw [h2, h1, next_bar_stale _ _ _ _ _ hdiff]
  refine ⟨hgen, h1, hsecond, ?_⟩
  rw [hsecond]
  simp [SyntheticCandle.create]

/-- Witness for C4: an engine configured with a 2-second duration timeframe
and a calendar month timeframe; the general replace-or-update conjunct is
exercised on the calendar timeframe (tick at `ts = 10`, January 1970 bucket
`[0, 2678400)`), the duration conjuncts on ticks at `t = 10` (price 100) and
`t = 12` (price 200). -/
theorem c4_witness :
    (0 : Int) < 2
    ∧ (slotOf ((SyntheticEngine.init
            [⟨"2s", "duration", some 2, none, none⟩,
             ⟨"month", "calendar", none, some "month", none⟩]).ingest_tick
          "S" 100 5 10).1.state "S" "month"
        = some (next_bar (slotOf (SyntheticEngine.init
            [⟨"2s", "duration", some 2, none, none⟩,
             ⟨"month", "calendar", none, some "month", none⟩]).state "S" "month")
          0 2678400 100 5)
      ∧ slotOf ((SyntheticEngine.init
            [⟨"2s", "duration", some 2, none, none⟩,
             ⟨"month", "calendar", none, some "month", none⟩]).ingest_tick
          "S" 100 5 10).1.state "S" "2s"
        = some (next_bar (slotOf (SyntheticEngine.init
            [⟨"2s", "duration", some 2, none, none⟩,
             ⟨"month", "calendar", none, some "month", none⟩]).state "S" "2s")
          (10 - Int.fmod 10 2) (10 - Int.fmod 10 2 + 2) 100 5)
      ∧ slotOf (((SyntheticEngine.init
            [⟨"2s", "duration", some 2, none, none⟩,
             ⟨"month", "calendar", none, some "month", none⟩]).ingest_tick
          "S" 100 5 10).1.ingest_tick "S" 200 7 (10 + 2)).1.state "S" "2s"
        = some (SyntheticCandle.create (10 + 2 - Int.fmod (10 + 2) 2)
            (10 + 2 - Int.fmod (10 + 2) 2 + 2) 200 7)
      ∧ (slotOf (((SyntheticEngine.init
            [⟨"2s", "duration", some 2, none, none⟩,
             ⟨"month", "calendar", none, some "month", none⟩]).ingest_tick
          "S" 100 5 10).1.ingest_tick "S" 200 7 (10 + 2)).1.state "S" "2s").map
            SyntheticCandle.o = some 200) :=
  ⟨by decide, c4_rollover
    (SyntheticEngine.init
      [⟨"2s", "duration", some 2, none, none⟩,
       ⟨"month", "calendar", none, some "month", none⟩])
    "S" "2s" "month" ⟨"2s", "duration", some 2, none, none⟩
    ⟨"month", "calendar", none, some "month", none⟩ 2 10 10 0 2678400 100 5 200 7 100 5
    (by decide) (by decide) (by decide) (by decide) (by decide) (by decide) (by decide)
    (by decide) (by decide) (by decide)⟩
